import Mathlib

/-!
Shallow embedding of the FastAPI to-do-list backend (`src/FastAPI/app`):
the Peewee-backed data model (`config/database.py`), the service layer
(`services/task_service.py`, `services/auth_service.py`,
`services/user_service.py`) and the route handlers
(`routes/task_routes.py`, `routes/auth_routes.py`,
`routes/user_management_routes.py`).

Database rows become Lean structures, the database becomes an explicit
`DB` value threaded through the stateful operations, Peewee's
`get_or_none` becomes `List.find?`, and every `raise HTTPException`
becomes an `Except.error` carrying the same status code and detail
string.  Dates and datetimes are modelled as integers (a timeline of
seconds), which is all the code ever compares.
-/

namespace TodoList

/-- Row of the `role` table (`RoleModel` in `config/database.py`). -/
structure RoleRec where
  id : Nat
  name : String
deriving Repr, DecidableEq

/-- Row of the `user` table (`UserModel` in `config/database.py`):
`password` holds the stored (hashed) secret, `role_id` the foreign key
into `role`, `is_active` defaults to `True` on creation. -/
structure UserRec where
  id : Nat
  email : String
  password : String
  role_id : Nat
  is_active : Bool
deriving Repr, DecidableEq

/-- The Pydantic `UserRead` response model (`models/user.py`): the user
row reshaped for callers, with the role object inlined. -/
structure UserRead where
  id : Nat
  email : String
  role_id : Nat
  is_active : Bool
  role : RoleRec
deriving Repr, DecidableEq

/-- Row of the `task` table (`TaskModel` in `config/database.py`).
`user_id` is the raw foreign-key attribute the services compare against
the caller's id. -/
structure TaskRec where
  id : Nat
  title : String
  description : Option String
  date_of_creation : Int
  expiration_date : Option Int
  status_id : Nat
  user_id : Nat
  is_favorite : Bool
deriving Repr, DecidableEq

/-- A value stored in one of the updatable columns of a task, tagged with
its column type.  `ChangeModel` persists `str(value)`; keeping the typed
value preserves exactly the equalities the change log exhibits. -/
inductive FieldVal where
  | str (s : String)
  | optStr (s : Option String)
  | optDate (d : Option Int)
  | nat (n : Nat)
  | bool (b : Bool)
deriving Repr, DecidableEq

/-- Row of the `change` table (`ChangeModel` in `config/database.py`),
written by `TaskService.update_task` to log one field modification. -/
structure ChangeRec where
  task_id : Nat
  field_changed : String
  old_value : FieldVal
  new_value : FieldVal
deriving Repr, DecidableEq

/-- The persistent state the services read and write: the four tables,
plus the auto-increment counter backing `UserModel`'s `AutoField` id. -/
structure DB where
  roles : List RoleRec
  users : List UserRec
  tasks : List TaskRec
  changes : List ChangeRec
  nextUserId : Nat
deriving Repr, DecidableEq

/-- An `HTTPException(status_code, detail)` as raised by the routes and
recovered by FastAPI into an error response; modelled as a value so that
the caller-visible outcome of a handler is an ordinary `Except`. -/
structure HttpErr where
  status : Nat
  detail : String
deriving Repr, DecidableEq

/-- One entry of the `**updates` keyword dict passed to
`TaskService.update_task`, i.e. one field of `TaskUpdate`
(`models/task.py`) that the caller set. -/
inductive TaskUpd where
  | title (v : String)
  | description (v : Option String)
  | expiration_date (v : Option Int)
  | status_id (v : Nat)
  | is_favorite (v : Bool)
deriving Repr, DecidableEq

/-- The dict key naming the updated field. -/
def TaskUpd.key : TaskUpd → String
  | .title _ => "title"
  | .description _ => "description"
  | .expiration_date _ => "expiration_date"
  | .status_id _ => "status_id"
  | .is_favorite _ => "is_favorite"

/-- The value carried by the update, as stored into the change log's
`new_value` column. -/
def TaskUpd.val : TaskUpd → FieldVal
  | .title v => .str v
  | .description v => .optStr v
  | .expiration_date v => .optDate v
  | .status_id v => .nat v
  | .is_favorite v => .bool v

/-- `setattr(task, key, value)` for one update entry. -/
def applyUpd (t : TaskRec) : TaskUpd → TaskRec
  | .title v => { t with title := v }
  | .description v => { t with description := v }
  | .expiration_date v => { t with expiration_date := v }
  | .status_id v => { t with status_id := v }
  | .is_favorite v => { t with is_favorite := v }

/-- `getattr(task, field, None)` where `field` is the key of the given
update entry, as read back when `update_task` writes the change log. -/
def getFieldOf (t : TaskRec) : TaskUpd → FieldVal
  | .title _ => .str t.title
  | .description _ => .optStr t.description
  | .expiration_date _ => .optDate t.expiration_date
  | .status_id _ => .nat t.status_id
  | .is_favorite _ => .bool t.is_favorite

/-- `TaskModel.get_or_none(TaskModel.id == task_id)`. -/
def findTask (db : DB) (task_id : Nat) : Option TaskRec :=
  db.tasks.find? (fun t => t.id == task_id)

/-- `RoleModel.get_by_id(role_id)` as an option (Peewee raises
`DoesNotExist`, which every caller in the services catches). -/
def findRole (db : DB) (role_id : Nat) : Option RoleRec :=
  db.roles.find? (fun r => r.id == role_id)

/-- `task.save()`: write the (mutated) row back under its primary key. -/
def saveTask (db : DB) (t : TaskRec) : DB :=
  { db with tasks := db.tasks.map (fun u => if u.id == t.id then t else u) }

/-- The `is_admin` flag every task route computes:
`current_user.role.name == "Administrator"`. -/
def isAdmin (u : UserRead) : Bool :=
  u.role.name == "Administrator"

/-- `TaskService.get_task_by_id` (`services/task_service.py`): fetch the
task, return it iff it exists and the caller owns it or is admin. -/
def get_task_by_id (db : DB) (task_id user_id : Nat) (is_admin : Bool) :
    Option TaskRec :=
  match findTask db task_id with
  | none => none
  | some task =>
    if task.user_id == user_id || is_admin then some task else none

/-- `TaskService.update_task` (`services/task_service.py`): on a
permitted task, `setattr` every update, `save`, then append one
`ChangeModel` row per updated field, reading `old_value` back from the
already-saved task.  Returns the updated task (or `none`) together with
the resulting database state. -/
def update_task (db : DB) (task_id user_id : Nat) (is_admin : Bool)
    (updates : List TaskUpd) : Option TaskRec × DB :=
  match findTask db task_id with
  | none => (none, db)
  | some task =>
    if task.user_id == user_id || is_admin then
      let task' := updates.foldl applyUpd task
      let db' := saveTask db task'
      let logged := updates.map (fun u =>
        { task_id := task'.id, field_changed := u.key,
          old_value := getFieldOf task' u, new_value := u.val : ChangeRec })
      (some task', { db' with changes := db'.changes ++ logged })
    else (none, db)

/-- `TaskService.delete_task` (`services/task_service.py`). -/
def delete_task (db : DB) (task_id user_id : Nat) (is_admin : Bool) :
    Bool × DB :=
  match findTask db task_id with
  | none => (false, db)
  | some task =>
    if task.user_id == user_id || is_admin then
      (true, { db with tasks := db.tasks.filter (fun t => !(t.id == task.id)) })
    else (false, db)

/-- The `GET /tasks/{task_id}` handler (`routes/task_routes.py`
`get_task`): look the task up through the service with the caller's id
and admin flag; a `None` from the service becomes
`HTTPException(404, "Task not found")`. -/
def getTaskRoute (db : DB) (task_id : Nat) (current_user : UserRead) :
    Except HttpErr TaskRec :=
  match get_task_by_id db task_id current_user.id (isAdmin current_user) with
  | some task => .ok task
  | none => .error ⟨404, "Task not found"⟩

/-- Modelled from the spec: the bcrypt-backed Passlib `CryptContext`
behind `AuthService.get_password_hash` (`services/auth_service.py`) is
third-party code not in the repository.  Section 4.1 specifies a salted,
adaptive one-way hash; it is modelled as an ideal deterministic hash
(injective, recognisable by `verify`), written as a tagged copy of the
plaintext so distinct plaintexts have distinct hashes. -/
def get_password_hash (password : String) : String :=
  "$2b$12$" ++ password

/-- Modelled from the spec: `AuthService.verify_password`
(`services/auth_service.py`) delegates to the same external
`CryptContext`; under the ideal-hash model it checks that the stored
string is the hash of the offered plaintext. -/
def verify_password (plain_password password : String) : Bool :=
  password == get_password_hash plain_password

/-- A JWT as produced by `jose.jwt.encode`: the claims set (the `"sub"`
claim if present, the `"exp"` claim) plus the symmetric key the token
was signed with.  Modelling the HMAC signature as the signing key itself
captures exactly what `jwt.decode` checks: decoding succeeds iff the
verification key equals the signing key. -/
structure Token where
  sub : Option String
  exp : Int
  key : String
deriving Repr, DecidableEq

/-- `ACCESS_TOKEN_EXPIRE_MINUTES` (`config/settings.py`, default 30). -/
def accessTokenExpireMinutes : Int := 30

/-- `AuthService.create_access_token` (`services/auth_service.py`)
applied to `data = {"sub": sub}`: copy the claims, add
`exp = now + expires_delta` (falling back to the configured default
lifetime), and sign with the secret key. -/
def create_access_token (sub : String) (expires_delta : Option Int)
    (now : Int) (key : String) : Token :=
  { sub := some sub,
    exp := now + expires_delta.getD (accessTokenExpireMinutes * 60),
    key := key }

/-- The `jwt.decode(token, SECRET_KEY, algorithms=[ALGORITHM])` step of
`AuthService.get_current_user`: verify the signature against the given
key and validate the `exp` claim against the current time (zero leeway:
a token whose expiry has passed is rejected), returning the payload's
`"sub"` claim on success and `none` where jose raises a `JWTError`. -/
def decodeToken (tok : Token) (key : String) (now : Int) :
    Option (Option String) :=
  if tok.key == key && decide (now < tok.exp) then some tok.sub else none

/-- The subject recovered by the decode half of `get_current_user`:
`payload.get("sub")`, flattened so a missing claim and a failed decode
both yield `none`. -/
def decodeSub (tok : Token) (key : String) (now : Int) : Option String :=
  (decodeToken tok key now).bind id

/-- The `credentials_exception` of `AuthService.get_current_user`: the
single `HTTPException` raised for every validation failure. -/
def credentialsException : HttpErr :=
  ⟨401, "Could not validate credentials"⟩

/-- `UserService.get_user_by_email_login` (`services/user_service.py`):
the raw user row by email, `None` when absent. -/
def get_user_by_email_login (db : DB) (email : String) : Option UserRec :=
  db.users.find? (fun u => u.email == email)

/-- Build the `UserRead` response value from a user row and its role row,
as the `UserService` lookups do before `UserRead.model_validate`. -/
def mkUserRead (u : UserRec) (r : RoleRec) : UserRead :=
  { id := u.id, email := u.email, role_id := r.id,
    is_active := u.is_active, role := r }

/-- `UserService.get_user_by_email` (`services/user_service.py`): the
user row by email reshaped into `UserRead`; dereferencing a missing row
(or its role row) raises `DoesNotExist`, which the method catches and
turns into `None`. -/
def get_user_by_email (db : DB) (email : String) : Option UserRead :=
  match db.users.find? (fun u => u.email == email) with
  | none => none
  | some u =>
    match findRole db u.role_id with
    | none => none
    | some r => some (mkUserRead u r)

/-- `AuthService.get_current_user` (`services/auth_service.py`): decode
the bearer token, reject a missing `sub` claim, then resolve the subject
through `UserService.get_user_by_email`; every failure raises the one
`credentials_exception`, which FastAPI maps to a 401 response. -/
def get_current_user (db : DB) (tok : Token) (key : String) (now : Int) :
    Except HttpErr UserRead :=
  match decodeToken tok key now with
  | none => .error credentialsException
  | some none => .error credentialsException
  | some (some email) =>
    match get_user_by_email db email with
    | none => .error credentialsException
    | some user => .ok user

/-- `AuthService.authenticate_user` (`services/auth_service.py`): look
the user up by email and check the password; `None` when either the
lookup or the verification fails. -/
def authenticate_user (db : DB) (email password : String) :
    Option UserRec :=
  match get_user_by_email_login db email with
  | none => none
  | some user =>
    if verify_password password user.password then some user else none

/-- The `POST /login` handler (`routes/auth_routes.py` `login`): a
failed authentication becomes `HTTPException(401, "Invalid
credentials")`; success issues a token for the user's email with the
default lifetime. -/
def login (db : DB) (email password : String) (key : String) (now : Int) :
    Except HttpErr Token :=
  match authenticate_user db email password with
  | none => .error ⟨401, "Invalid credentials"⟩
  | some user => .ok (create_access_token user.email none now key)

/-- `UserService.create_user` (`services/user_service.py`): resolve the
role (a missing role becomes an `HTTPException`), insert the user row
with a fresh auto-increment id and `is_active` defaulted to true, and
return the `UserRead` view together with the new state. -/
def create_user (db : DB) (email password : String) (role_id : Nat) :
    Except HttpErr UserRead × DB :=
  match findRole db role_id with
  | none =>
    (.error ⟨404, "Status:404, Role with id " ++ toString role_id ++ " not found"⟩, db)
  | some role =>
    let u : UserRec :=
      { id := db.nextUserId, email := email, password := password,
        role_id := role.id, is_active := true }
    (.ok (mkUserRead u role),
     { db with users := db.users ++ [u], nextUserId := db.nextUserId + 1 })

/-- The Pydantic `UserCreate` request schema (`models/user.py`), which is
what the `register` route accepts: `email` is an `EmailStr`, while
`password` is a plain `str` and `role_id` a plain `int`, with no
emptiness constraint (the stricter `UserCreateEnhanced` defined in
`routes/auth_routes.py` is not used by any route). -/
structure UserCreate where
  email : String
  password : String
  role_id : Nat
deriving Repr, DecidableEq

/-- The `POST /register` handler (`routes/auth_routes.py` `register`):
reject an email that already resolves to a user with
`HTTPException(400, "Email already registered")`, otherwise hash the
offered password and create the user. -/
def register (db : DB) (user : UserCreate) : Except HttpErr UserRead × DB :=
  match get_user_by_email db user.email with
  | some _ => (.error ⟨400, "Email already registered"⟩, db)
  | none =>
    let hashed := get_password_hash user.password
    create_user db user.email hashed user.role_id

/-- `UserService.list_all_users` (`services/user_service.py`): selects
the user rows whose role foreign key equals 2. -/
def list_all_users (db : DB) : List UserRec :=
  db.users.filter (fun u => u.role_id == 2)

/-- The `GET /admin/users/` handler (`routes/user_management_routes.py`
`list_users`): it declares no authentication or authorization dependency
— no bearer token, no `get_current_admin`, no `verify_admin` — and
returns `UserService.list_all_users()` directly, so the handler takes no
principal at all. -/
def list_users (db : DB) : List UserRec :=
  list_all_users db

/-! Concrete fixtures used by the evaluation and witness theorems: two
roles, three users (alice and bob with the plain `User` role, one
administrator), and one task owned by alice. -/

/-- The `Administrator` role row. -/
def adminRole : RoleRec := ⟨1, "Administrator"⟩

/-- The plain `User` role row. -/
def userRole : RoleRec := ⟨2, "User"⟩

/-- Fixture user row: alice, a plain user. -/
def aliceRec : UserRec :=
  ⟨1, "alice@example.com", get_password_hash "alicepw", 2, true⟩

/-- Fixture user row: bob, a plain user. -/
def bobRec : UserRec :=
  ⟨2, "bob@example.com", get_password_hash "bobpw", 2, true⟩

/-- Fixture user row: an administrator. -/
def adminRec : UserRec :=
  ⟨3, "admin@example.com", get_password_hash "adminpw", 1, true⟩

/-- Fixture task owned by alice. -/
def aliceTask : TaskRec :=
  ⟨1, "buy milk", some "2 litres", 0, some 100, 1, 1, false⟩

/-- Fixture database holding the rows above. -/
def sampleDb : DB :=
  { roles := [adminRole, userRole],
    users := [aliceRec, bobRec, adminRec],
    tasks := [aliceTask],
    changes := [],
    nextUserId := 4 }

/-- Alice's `UserRead` view. -/
def aliceRead : UserRead := mkUserRead aliceRec userRole

/-- Bob's `UserRead` view. -/
def bobRead : UserRead := mkUserRead bobRec userRole

/-- The administrator's `UserRead` view. -/
def adminRead : UserRead := mkUserRead adminRec adminRole

/-- C1: for an existing task, `get_task_by_id`, `update_task` and
`delete_task` succeed exactly when the caller's role is `Administrator`
or the task's `user_id` equals the caller's id, and return `none`/`false`
otherwise. -/
theorem task_access_iff_admin_or_owner (db : DB) (u : UserRead)
    (task_id : Nat) (t : TaskRec) (updates : List TaskUpd)
    (ht : findTask db task_id = some t) :
    (get_task_by_id db task_id u.id (isAdmin u) = some t
      ↔ (u.role.name = "Administrator" ∨ t.user_id = u.id))
    ∧ ((update_task db task_id u.id (isAdmin u) updates).1.isSome = true
      ↔ (u.role.name = "Administrator" ∨ t.user_id = u.id))
    ∧ ((delete_task db task_id u.id (isAdmin u)).1 = true
      ↔ (u.role.name = "Administrator" ∨ t.user_id = u.id)) := by
  have hcond : (t.user_id == u.id || isAdmin u) = true
      ↔ (u.role.name = "Administrator" ∨ t.user_id = u.id) := by
    simp [isAdmin, or_comm]
  refine ⟨?_, ?_, ?_⟩ <;>
    simp only [get_task_by_id, update_task, delete_task, ht] <;>
    rw [← hcond] <;>
    by_cases hb : (t.user_id == u.id || isAdmin u) = true <;>
    simp [hb]

/-- Witness for C1: the administrator can read, update and delete
alice's task even though it is not theirs. -/
theorem task_access_iff_admin_or_owner_witness :
    (get_task_by_id sampleDb 1 adminRead.id (isAdmin adminRead) = some aliceTask
      ↔ (adminRead.role.name = "Administrator" ∨ aliceTask.user_id = adminRead.id))
    ∧ ((update_task sampleDb 1 adminRead.id (isAdmin adminRead) []).1.isSome = true
      ↔ (adminRead.role.name = "Administrator" ∨ aliceTask.user_id = adminRead.id))
    ∧ ((delete_task sampleDb 1 adminRead.id (isAdmin adminRead)).1 = true
      ↔ (adminRead.role.name = "Administrator" ∨ aliceTask.user_id = adminRead.id)) :=
  task_access_iff_admin_or_owner sampleDb adminRead 1 aliceTask [] (by decide)

/-- C5: for a non-admin caller, requesting an existing task they do not
own produces exactly the same caller-visible outcome as requesting a
task id that does not exist: `HTTPException(404, "Task not found")`. -/
theorem unauthorized_indistinguishable_from_missing (db : DB)
    (u : UserRead) (t : TaskRec) (missing_id : Nat)
    (hadm : isAdmin u = false)
    (ht : findTask db t.id = some t)
    (hown : t.user_id ≠ u.id)
    (hmiss : findTask db missing_id = none) :
    getTaskRoute db t.id u = getTaskRoute db missing_id u
    ∧ getTaskRoute db t.id u = .error ⟨404, "Task not found"⟩ := by
  have h1 : getTaskRoute db t.id u = .error ⟨404, "Task not found"⟩ := by
    simp [getTaskRoute, get_task_by_id, ht, hadm, hown]
  have h2 : getTaskRoute db missing_id u = .error ⟨404, "Task not found"⟩ := by
    simp [getTaskRoute, get_task_by_id, hmiss]
  exact ⟨h1.trans h2.symm, h1⟩

/-- Witness for C5: bob asking for alice's task gets the same 404 as
asking for the nonexistent task 99. -/
theorem unauthorized_indistinguishable_from_missing_witness :
    getTaskRoute sampleDb aliceTask.id bobRead = getTaskRoute sampleDb 99 bobRead
    ∧ getTaskRoute sampleDb aliceTask.id bobRead = .error ⟨404, "Task not found"⟩ :=
  unauthorized_indistinguishable_from_missing sampleDb bobRead aliceTask 99
    (by decide) (by decide) (by decide) (by decide)

/-- Reading back an update's own field right after applying it yields the
updated value. -/
theorem getFieldOf_applyUpd_self (t : TaskRec) (u : TaskUpd) :
    getFieldOf (applyUpd t u) u = u.val := by
  cases u <;> rfl

/-- Applying an update for a different field leaves a field's read-back
value unchanged. -/
theorem getFieldOf_applyUpd_ne (t : TaskRec) (u v : TaskUpd)
    (h : v.key ≠ u.key) : getFieldOf (applyUpd t v) u = getFieldOf t u := by
  cases u <;> cases v <;> first | rfl | exact absurd rfl h

/-- Folding updates none of which touch `u`'s field leaves that field's
read-back value unchanged. -/
theorem getFieldOf_foldl_of_not_mem (t : TaskRec) (u : TaskUpd)
    (l : List TaskUpd) (h : ∀ v ∈ l, v.key ≠ u.key) :
    getFieldOf (l.foldl applyUpd t) u = getFieldOf t u := by
  induction l generalizing t with
  | nil => rfl
  | cons v l ih =>
    simp only [List.foldl_cons]
    rw [ih _ (fun w hw => h w (List.mem_cons_of_mem _ hw))]
    exact getFieldOf_applyUpd_ne t u v (h v (List.mem_cons_self _ _))

/-- With pairwise-distinct field keys (the invariant of a Python keyword
dict), reading an updated field back from the fully-updated task yields
that update's value. -/
theorem getFieldOf_foldl_self (u : TaskUpd) :
    ∀ (l : List TaskUpd) (t : TaskRec), u ∈ l →
    (l.map TaskUpd.key).Nodup →
    getFieldOf (l.foldl applyUpd t) u = u.val := by
  intro l
  induction l with
  | nil => intro t hmem _; cases hmem
  | cons v l ih =>
    intro t hmem hnodup
    simp only [List.map_cons, List.nodup_cons] at hnodup
    rcases List.mem_cons.mp hmem with rfl | hmem'
    · simp only [List.foldl_cons]
      rw [getFieldOf_foldl_of_not_mem]
      · exact getFieldOf_applyUpd_self t u
      · intro w hw heq
        exact hnodup.1 (List.mem_map.mpr ⟨w, hw, heq⟩)
    · exact ih (applyUpd t v) hmem' hnodup.2

/-- C10: `update_task` saves the new field values before writing the
change history, so every change-history row a successful call appends
records `old_value` equal to `new_value`; the pre-update value is never
recorded. -/
theorem change_log_old_equals_new (db : DB) (task_id user_id : Nat)
    (is_admin : Bool) (updates : List TaskUpd) (c : ChangeRec)
    (hnodup : (updates.map TaskUpd.key).Nodup)
    (hc : c ∈ (update_task db task_id user_id is_admin updates).2.changes)
    (hnew : c ∉ db.changes) :
    c.old_value = c.new_value := by
  cases hfind : findTask db task_id with
  | none =>
    simp only [update_task, hfind] at hc
    exact absurd hc hnew
  | some task =>
    simp only [update_task, hfind] at hc
    by_cases hperm : (task.user_id == user_id || is_admin) = true
    · rw [if_pos hperm] at hc
      simp only [saveTask, List.mem_append, List.mem_map] at hc
      rcases hc with hc | ⟨u, hu, rfl⟩
      · exact absurd hc hnew
      · exact getFieldOf_foldl_self u updates task hu hnodup
    · rw [if_neg hperm] at hc
      exact absurd hc hnew

/-- Witness for C10: alice renames her task; the logged change row has
`old_value = new_value = "new title"`. -/
theorem change_log_old_equals_new_witness :
    ({ task_id := 1, field_changed := "title",
       old_value := .str "new title", new_value := .str "new title" } : ChangeRec).old_value
    = ({ task_id := 1, field_changed := "title",
         old_value := .str "new title", new_value := .str "new title" } : ChangeRec).new_value :=
  change_log_old_equals_new sampleDb 1 1 false [.title "new title"] _
    (by decide) (by decide) (by decide)

/-- C2: for any subject and any positive lifetime, decoding a token
immediately after `create_access_token` issued it (same key, same
instant) recovers the same subject. -/
theorem issue_validate_roundtrip (s : String) (ttl now : Int)
    (key : String) (h : 0 < ttl) :
    decodeSub (create_access_token s (some ttl) now key) key now = some s := by
  have hlt : now < now + ttl := by omega
  simp [decodeSub, decodeToken, create_access_token, hlt]

/-- Witness for C2: a token for alice with a 60-second lifetime decodes
back to alice at the instant of issuance. -/
theorem issue_validate_roundtrip_witness :
    decodeSub (create_access_token "alice@example.com" (some 60) 0 "secret")
      "secret" 0 = some "alice@example.com" :=
  issue_validate_roundtrip "alice@example.com" 60 0 "secret" (by decide)

/-- C3: a token signed with the wrong key, a token without a `sub`
claim, and a token whose expiry has passed all make `get_current_user`
fail with the one `credentials_exception` value — a managed 401
outcome, not an escaping fault. -/
theorem invalid_token_uniform_rejection (db : DB) (tok : Token)
    (key : String) (now : Int)
    (h : tok.key ≠ key ∨ tok.sub = none ∨ tok.exp ≤ now) :
    get_current_user db tok key now = .error credentialsException := by
  rcases h with h | h | h
  · simp [get_current_user, decodeToken, h]
  · cases hcond : (tok.key == key && decide (now < tok.exp)) <;>
      simp [get_current_user, decodeToken, hcond, h]
  · have hd : decide (now < tok.exp) = false := decide_eq_false (not_lt.mpr h)
    simp [get_current_user, decodeToken, hd]

/-- Witness for C3: a token signed with a different key is rejected with
the credentials exception. -/
theorem invalid_token_uniform_rejection_witness :
    get_current_user sampleDb ⟨some "alice@example.com", 100, "wrong-key"⟩
      "secret" 0 = .error credentialsException :=
  invalid_token_uniform_rejection sampleDb ⟨some "alice@example.com", 100, "wrong-key"⟩
    "secret" 0 (Or.inl (by decide))

/-- C4: a login whose email does not resolve to any user and a login
whose email resolves but whose password fails verification produce
identical caller-visible outcomes: `HTTPException(401, "Invalid
credentials")` in both runs. -/
theorem login_failure_hides_existence (db1 db2 : DB)
    (email password key : String) (now : Int)
    (h1 : get_user_by_email_login db1 email = none)
    (h2 : ∀ u, get_user_by_email_login db2 email = some u →
        verify_password password u.password = false) :
    login db1 email password key now = login db2 email password key now
    ∧ login db1 email password key now = .error ⟨401, "Invalid credentials"⟩ := by
  have e1 : login db1 email password key now
      = .error ⟨401, "Invalid credentials"⟩ := by
    simp [login, authenticate_user, h1]
  have e2 : login db2 email password key now
      = .error ⟨401, "Invalid credentials"⟩ := by
    unfold login authenticate_user
    cases hu : get_user_by_email_login db2 email with
    | none => rfl
    | some u => simp [h2 u hu]
  exact ⟨e1.trans e2.symm, e1⟩

/-- Witness for C4: logging in as bob with the wrong password against
the populated database is indistinguishable from logging in as bob
against an empty database where he does not exist. -/
theorem login_failure_hides_existence_witness :
    login { roles := [adminRole, userRole], users := [], tasks := [],
            changes := [], nextUserId := 1 } "bob@example.com" "wrongpw" "secret" 0
      = login sampleDb "bob@example.com" "wrongpw" "secret" 0
    ∧ login { roles := [adminRole, userRole], users := [], tasks := [],
              changes := [], nextUserId := 1 } "bob@example.com" "wrongpw" "secret" 0
      = .error ⟨401, "Invalid credentials"⟩ :=
  login_failure_hides_existence
    { roles := [adminRole, userRole], users := [], tasks := [],
      changes := [], nextUserId := 1 } sampleDb
    "bob@example.com" "wrongpw" "secret" 0 (by decide)
    (by
      intro u hu
      have hu' : u = bobRec := by
        simpa [get_user_by_email_login, sampleDb, aliceRec, bobRec] using hu.symm
      subst hu'
      decide)

/-- C7: registering with an email that already resolves to a user fails
with the duplicate-email outcome and returns the database unchanged, so
the existing user's row (email, stored hash, role, active flag) is
untouched. -/
theorem duplicate_registration_conflict (db : DB) (user : UserCreate)
    (ex : UserRead) (h : get_user_by_email db user.email = some ex) :
    register db user = (.error ⟨400, "Email already registered"⟩, db) := by
  simp [register, h]

/-- Witness for C7: re-registering alice's email fails with the
duplicate-email error and leaves the database exactly as it was. -/
theorem duplicate_registration_conflict_witness :
    register sampleDb ⟨"alice@example.com", "newpw", 2⟩
      = (.error ⟨400, "Email already registered"⟩, sampleDb) :=
  duplicate_registration_conflict sampleDb ⟨"alice@example.com", "newpw", 2⟩
    (mkUserRead aliceRec userRole) (by decide)

/-- C8: under the ideal-hash model of the bcrypt context, verifying a
password against its own hash succeeds, and verifying it against the
hash of any different password fails. -/
theorem hash_verify_roundtrip (p1 p2 : String) :
    verify_password p1 (get_password_hash p1) = true
    ∧ (p1 ≠ p2 → verify_password p1 (get_password_hash p2) = false) := by
  constructor
  · simp [verify_password]
  · intro hne
    simp only [verify_password]
    rw [beq_eq_false_iff_ne]
    intro h
    have hdata := congrArg String.data h
    simp only [get_password_hash] at hdata
    have : p2 = p1 := by
      apply String.ext
      simpa using hdata
    exact hne this.symm

/-- Witness for C8: "alicepw" verifies against its own hash and not
against the hash of "bobpw". -/
theorem hash_verify_roundtrip_witness :
    verify_password "alicepw" (get_password_hash "alicepw") = true
    ∧ verify_password "alicepw" (get_password_hash "bobpw") = false :=
  ⟨(hash_verify_roundtrip "alicepw" "bobpw").1,
   (hash_verify_roundtrip "alicepw" "bobpw").2 (by decide)⟩

/-- C6 (violated by the code): the `GET /admin/users/` handler takes no
principal — `list_users` has no authentication or authorization
parameter at all — and hands the stored user rows (those with role
foreign key 2, so not even the full set) to any caller: here it yields
alice's and bob's rows, complete with stored password hashes, with no
admin-or-owner check ever run. -/
theorem list_users_unauthenticated :
    list_users sampleDb = [aliceRec, bobRec] := by
  decide

/-- C9 (violated by the code): `register` accepts an empty password —
the `UserCreate` schema places no emptiness constraint on it — hashes
it, and issues the create against persistence: the user table grows by a
row whose stored secret is the hash of the empty string, instead of the
request being rejected as a validation error before persistence. -/
theorem register_accepts_empty_password :
    (register sampleDb ⟨"carol@example.com", "", 2⟩).2.users
      = sampleDb.users
        ++ [⟨4, "carol@example.com", get_password_hash "", 2, true⟩]
    ∧ (register sampleDb ⟨"carol@example.com", "", 2⟩).1
      = .ok (mkUserRead ⟨4, "carol@example.com", get_password_hash "", 2, true⟩ userRole) :=
  ⟨rfl, rfl⟩

end TodoList
